import Mathlib

/-!
Verification of the `obs_necam` repository: a shallow embedding of
`src/gen3/translators/necam.py` (the `NeCamTranslator` metadata translator)
and `src/config/ingest.py` (the declarative ingest configuration), together
with theorems settling the specification claims about them.

A FITS header is modelled as an association list from keyword strings to
header values.  Header values are strings, integers, or (for floating-point
fields such as exposure times) rational numbers.  Accessors that in Python
raise `KeyError` / `TypeError` are modelled as returning `Option`, with
`none` standing for the propagated failure.
-/

namespace ObsNecam

/-- A FITS header value: a string, a Python `int`, or a floating-point
number (modelled as a rational). -/
inductive HVal where
  | vStr (s : String)
  | vInt (n : Int)
  | vNum (q : ℚ)
deriving DecidableEq, Repr

/-- A FITS header presented as a key/value structure (Python `dict`-like).
Lookup of the first binding of a key models Python `header[key]`. -/
abbrev Header := List (String × HVal)

/-! ## `src/config/ingest.py` — the ingest configuration tables -/

namespace IngestConfig

/-- `config.parse.translation`: header keyword copied for each field. -/
def parseTranslation : List (String × String) :=
  [("dataType", "IMGTYPE"),
   ("expTime", "EXPTIME"),
   ("ccd", "INSTRUME"),
   ("frameId", "RUN-ID"),
   ("visit", "RUN-ID"),
   ("filter", "FILTER"),
   ("field", "OBJECT")]

/-- `config.parse.translators`: named custom translator hooks. -/
def parseTranslators : List (String × String) :=
  [("dateObs", "translate_Date"),
   ("taiObs", "translate_Date")]

/-- `config.register.visit`: the grouping key set. -/
def registerVisit : List String :=
  ["visit", "ccd", "filter", "dateObs", "taiObs"]

/-- `config.register.unique`: the uniqueness constraint set. -/
def registerUnique : List String :=
  ["visit", "ccd", "filter"]

/-- `config.register.columns`: the registry column-type schema. -/
def registerColumns : List (String × String) :=
  [("frameId", "text"),
   ("visit", "text"),
   ("ccd", "text"),
   ("filter", "text"),
   ("dataType", "text"),
   ("expTime", "double"),
   ("dateObs", "text"),
   ("taiObs", "text"),
   ("field", "text")]

end IngestConfig

/-! ## Host-library value models

The translator's derived accessors construct objects of the host
libraries (`astropy.time.Time`, `astropy.units` quantities,
`astropy.coordinates.SkyCoord`).  These are modelled as records holding
exactly the data the translator passes to the host constructors. -/

/-- Model of an `astropy.time.Time` value as constructed by the translator:
the ISO date string and scale passed to `Time(date, format="iso",
scale="utc")`, plus the seconds offset accumulated by later `Time + Quantity`
additions (astropy time arithmetic is exact at this granularity). -/
structure ISOTime where
  iso : String
  scale : String
  offsetSec : ℚ
deriving DecidableEq, Repr

/-- Model of an `astropy.units` quantity: a magnitude and a unit name. -/
structure Quantity where
  value : ℚ
  unit : String
deriving DecidableEq, Repr

/-- Seconds content of a quantity.  Only second-valued quantities arise in
this code (`EXPTIME` is attached unit `u.s`); other units would need the
host's unit conversion, which is out of scope, so they map to `none`. -/
def quantityInSeconds (q : Quantity) : Option ℚ :=
  if q.unit = "s" then some q.value else none

/-- Model of `Time + Quantity`: add the quantity, converted to seconds, to
the time's offset. -/
def timeAdd (t : ISOTime) (q : Quantity) : Option ISOTime :=
  (quantityInSeconds q).map fun v => { t with offsetSec := t.offsetSec + v }

/-- Model of an `astropy.coordinates.SkyCoord` as constructed by the
translator: the two positional values and the `frame=` and `unit=` keyword
arguments it was built from. -/
structure SkyCoord where
  ra : HVal
  dec : HVal
  frame : String
  raUnit : String
  decUnit : String
deriving DecidableEq, Repr

/-- Python string slice `s[a:b]` for `0 ≤ a ≤ b`: drop `a` characters, then
take `b - a`. -/
def pySlice (s : String) (a b : Nat) : String :=
  String.mk ((s.data.drop a).take (b - a))

/-- Python string slice `s[a:]`: drop `a` characters. -/
def pySliceFrom (s : String) (a : Nat) : String :=
  String.mk (s.data.drop a)

/-- Left-pad a string with `'0'` characters to the given width (no-op when
already at least that long); the digit-padding half of Python's
`'{:02d}'.format`. -/
def zeroPad (width : Nat) (s : String) : String :=
  if s.length < width then String.mk (List.replicate (width - s.length) '0') ++ s
  else s

/-- Python `'{:02d}'.format(n)` for an `int` `n`: minimum field width 2,
zero-filled after the sign. -/
def format02d (n : Int) : String :=
  if n < 0 then "-" ++ zeroPad 1 (Nat.repr n.natAbs)
  else zeroPad 2 (Nat.repr n.toNat)

/-! ## `src/gen3/translators/necam.py` — the `NeCamTranslator` class -/

namespace NeCamTranslator

/-- `name`: name of this translation class. -/
def name : String := "NeCam"

/-- `supported_instrument`. -/
def supported_instrument : String := "NeCam"

/-- A constant fallback value of `_const_map`: Python `None`, a string, an
`Angle` in degrees, or a unit-bearing quantity. -/
inductive ConstVal where
  | cNone
  | cStr (s : String)
  | cAngleDeg (q : ℚ)
  | cQuantity (v : ℚ) (unit : String)
deriving DecidableEq, Repr

/-- `_const_map`: properties with declared constant fallbacks. -/
def _const_map : List (String × ConstVal) :=
  [("boresight_rotation_coord", ConstVal.cStr "sky"),
   ("detector_group", ConstVal.cNone),
   ("boresight_airmass", ConstVal.cNone),
   ("boresight_rotation_angle", ConstVal.cAngleDeg 90),
   ("science_program", ConstVal.cNone),
   ("temperature", ConstVal.cQuantity 300 "K"),
   ("pressure", ConstVal.cQuantity 985 "hPa"),
   ("relative_humidity", ConstVal.cNone),
   ("altaz_begin", ConstVal.cNone),
   ("location", ConstVal.cNone)]

/-- One entry of `_trivial_map`: the header keyword to copy and the
optional unit to attach. -/
structure TrivEntry where
  keyword : String
  unit : Option String
deriving DecidableEq, Repr

/-- `_trivial_map`: properties taken directly from the header. -/
def _trivial_map : List (String × TrivEntry) :=
  [("exposure_id", ⟨"RUN", none⟩),
   ("visit_id", ⟨"RUN", none⟩),
   ("observation_id", ⟨"RUN", none⟩),
   ("detector_exposure_id", ⟨"RUN", none⟩),
   ("detector_num", ⟨"DETECTOR", none⟩),
   ("detector_serial", ⟨"DETECTOR", none⟩),
   ("physical_filter", ⟨"FILTER", none⟩),
   ("exposure_time", ⟨"EXPTIME", some "s"⟩),
   ("dark_time", ⟨"EXPTIME", some "s"⟩),
   ("object", ⟨"OBJECT", none⟩),
   ("observation_type", ⟨"OBSTYPE", none⟩)]

/-- The raw header value a `_trivial_map` accessor copies: look the
property up in `_trivial_map`, then its keyword up in the header (`none`
models the propagated `KeyError`). -/
def trivialRaw (h : Header) (prop : String) : Option HVal :=
  (_trivial_map.lookup prop).bind fun e => h.lookup e.keyword

/-- Trivially mapped `exposure_id` (keyword `RUN`). -/
def exposure_id (h : Header) : Option HVal := trivialRaw h "exposure_id"

/-- Trivially mapped `visit_id` (keyword `RUN`). -/
def visit_id (h : Header) : Option HVal := trivialRaw h "visit_id"

/-- Trivially mapped `observation_id` (keyword `RUN`). -/
def observation_id (h : Header) : Option HVal := trivialRaw h "observation_id"

/-- Trivially mapped `detector_exposure_id` (keyword `RUN`). -/
def detector_exposure_id (h : Header) : Option HVal := trivialRaw h "detector_exposure_id"

/-- Trivially mapped `detector_num` (keyword `DETECTOR`). -/
def detector_num (h : Header) : Option HVal := trivialRaw h "detector_num"

/-- Trivially mapped `detector_serial` (keyword `DETECTOR`). -/
def detector_serial (h : Header) : Option HVal := trivialRaw h "detector_serial"

/-- Attach a unit to a numeric header value, producing a quantity; a string
value or a missing unit yields `none` (the host would raise). -/
def toQuantity (v : HVal) (u : Option String) : Option Quantity :=
  match v, u with
  | HVal.vInt n, some unit => some ⟨(n : ℚ), unit⟩
  | HVal.vNum q, some unit => some ⟨q, unit⟩
  | _, _ => none

/-- Trivially mapped `exposure_time`: keyword `EXPTIME` with unit `u.s`. -/
def to_exposure_time (h : Header) : Option Quantity :=
  (_trivial_map.lookup "exposure_time").bind fun e =>
    (h.lookup e.keyword).bind fun v => toQuantity v e.unit

/-- `can_translate`: `True` exactly when the header has an `INSTRUME`
keyword whose value equals `"NECAM"`. -/
def can_translate (h : Header) : Bool :=
  match h.lookup "INSTRUME" with
  | some v => if v = HVal.vStr "NECAM" then true else false
  | none => false

/-- `to_datetime_begin`: slice the `DATE-OBS` string as
`[date[0:4], date[4:6], date[6:]]`, join with `'-'`, and build
`Time(date, format="iso", scale="utc")`.  A missing keyword or a
non-string value yields `none` (`KeyError` / `TypeError`). -/
def to_datetime_begin (h : Header) : Option ISOTime :=
  match h.lookup "DATE-OBS" with
  | some (HVal.vStr date) =>
      some { iso := pySlice date 0 4 ++ "-" ++ pySlice date 4 6 ++ "-" ++ pySliceFrom date 6,
             scale := "utc",
             offsetSec := 0 }
  | _ => none

/-- `to_datetime_end`: `to_datetime_begin() + to_exposure_time()`; a
failure of either operand propagates. -/
def to_datetime_end (h : Header) : Option ISOTime :=
  match to_datetime_begin h, to_exposure_time h with
  | some t, some q => timeAdd t q
  | _, _ => none

/-- `to_tracking_radec`: `SkyCoord(header["RA2000"], header["DEC2000"],
frame="icrs", unit=(u.hourangle, u.deg))`; a missing keyword yields
`none`. -/
def to_tracking_radec (h : Header) : Option SkyCoord :=
  match h.lookup "RA2000", h.lookup "DEC2000" with
  | some ra, some dec => some ⟨ra, dec, "icrs", "hourangle", "deg"⟩
  | _, _ => none

/-- `to_instrument`: `"NeCam"` when `header["INSTRUME"] == "NECAM"`, else
the `"Unknown"` fallback; a missing keyword yields `none` (`KeyError`). -/
def to_instrument (h : Header) : Option String :=
  match h.lookup "INSTRUME" with
  | some v => if v = HVal.vStr "NECAM" then some "NeCam" else some "Unknown"
  | none => none

/-- `to_telescope`: delegates to `to_instrument`. -/
def to_telescope (h : Header) : Option String := to_instrument h

/-- `to_detector_name`: `'{:02d}'.format(header["DETECTOR"])`; a missing
keyword or a non-`int` value yields `none` (`KeyError` / `ValueError`). -/
def to_detector_name (h : Header) : Option String :=
  match h.lookup "DETECTOR" with
  | some (HVal.vInt n) => some (format02d n)
  | _ => none

/-- The derived (`to_<field>`) accessors defined on the class. -/
def derivedAccessors : List String :=
  ["to_datetime_begin", "to_datetime_end", "to_tracking_radec",
   "to_instrument", "to_telescope", "to_detector_name"]

/-- Modelled from the spec: the `cache_translation` decorator is defined in
`gen3/translator.py`, a module of this repository not included under
`src/`; per the spec it implements the host framework's caching discipline,
memoizing each decorated accessor per header so its derivation runs at most
once.  This list records which accessors carry the decorator in
`necam.py` — every derived accessor except `to_telescope`. -/
def cacheDecorated : List String :=
  ["to_datetime_begin", "to_datetime_end", "to_tracking_radec",
   "to_instrument", "to_detector_name"]

end NeCamTranslator

/-! ## Helper lemmas -/

/-- `can_translate` in lookup form: shared by the recognition and
instrument-name theorems. -/
lemma can_translate_eq_true_iff (h : Header) :
    NeCamTranslator.can_translate h = true ↔
      h.lookup "INSTRUME" = some (HVal.vStr "NECAM") := by
  unfold NeCamTranslator.can_translate
  cases hl : h.lookup "INSTRUME" with
  | none => simp
  | some v => by_cases hv : v = HVal.vStr "NECAM" <;> simp [hv]

/-- Any exposure-time quantity the translator produces carries unit `s`. -/
lemma to_exposure_time_unit (h : Header) (q : Quantity)
    (hq : NeCamTranslator.to_exposure_time h = some q) : q.unit = "s" := by
  unfold NeCamTranslator.to_exposure_time at hq
  have hmap : NeCamTranslator._trivial_map.lookup "exposure_time" =
      some ⟨"EXPTIME", some "s"⟩ := by decide
  rw [hmap, Option.some_bind] at hq
  obtain ⟨v, _, htq⟩ := Option.bind_eq_some.mp hq
  cases v <;> simp [NeCamTranslator.toQuantity] at htq
  all_goals rw [← htq]

/-- A zero-padded string has at least the requested width. -/
lemma zeroPad_length (width : Nat) (s : String) :
    width ≤ (zeroPad width s).length := by
  unfold zeroPad
  split
  · have : (String.mk (List.replicate (width - s.length) '0') ++ s).length =
        (width - s.length) + s.length := by
      simp [String.length_append]
    omega
  · omega

/-- `'{:02d}'` never yields fewer than two characters. -/
lemma format02d_length (n : Int) : 2 ≤ (format02d n).length := by
  unfold format02d
  split
  · have h1 := zeroPad_length 1 (Nat.repr n.natAbs)
    have : ("-" ++ zeroPad 1 (Nat.repr n.natAbs)).length =
        1 + (zeroPad 1 (Nat.repr n.natAbs)).length := by
      simp [String.length_append]
      decide
    omega
  · exact zeroPad_length 2 (Nat.repr n.toNat)

/-! ## Claim theorems -/

/-- C1: `can_translate` returns `true` exactly when the header binds the
key `INSTRUME` to the expected instrument token `"NECAM"`; for a header
lacking that key, or carrying any other value under it, it returns `false`
(it is a total `Bool`-valued function, so it cannot raise). -/
theorem can_translate_spec (h : Header) :
    NeCamTranslator.can_translate h = true ↔
      h.lookup "INSTRUME" = some (HVal.vStr "NECAM") :=
  can_translate_eq_true_iff h

/-- C2: for a header whose `DATE-OBS` value is an 8-character digit string
of form `YYYYMMDD` (4-character year `y`, 2-character month `m`,
2-character day `d`), `to_datetime_begin` returns the time value for the
equivalent ISO calendar date `y-m-d` in the UTC scale, with no offset. -/
theorem to_datetime_begin_iso (h : Header) (y m d : String)
    (hl : h.lookup "DATE-OBS" = some (HVal.vStr (y ++ m ++ d)))
    (hdig : ∀ c ∈ (y ++ m ++ d).data, c.isDigit)
    (hy : y.length = 4) (hm : m.length = 2) (hd : d.length = 2) :
    NeCamTranslator.to_datetime_begin h =
      some ⟨y ++ "-" ++ m ++ "-" ++ d, "utc", 0⟩ := by
  have hdata : (y ++ m ++ d).data = y.data ++ (m.data ++ d.data) := by
    simp [String.data_append]
  have hdata2 : (y ++ m ++ d).data = (y.data ++ m.data) ++ d.data := by
    simp [String.data_append]
  have h1 : pySlice (y ++ m ++ d) 0 4 = y := by
    unfold pySlice
    rw [hdata]
    simp only [List.drop_zero, Nat.sub_zero]
    rw [List.take_left' hy]
  have h2 : pySlice (y ++ m ++ d) 4 6 = m := by
    unfold pySlice
    rw [hdata, List.drop_left' hy]
    norm_num
    rw [List.take_left' hm]
  have h3 : pySliceFrom (y ++ m ++ d) 6 = d := by
    unfold pySliceFrom
    have hlen : (y.data ++ m.data).length = 6 := by
      rw [List.length_append]
      have hy' : y.data.length = 4 := hy
      have hm' : m.data.length = 2 := hm
      omega
    rw [hdata2, List.drop_left' hlen]
  unfold NeCamTranslator.to_datetime_begin
  rw [hl]
  show some (ISOTime.mk (pySlice (y ++ m ++ d) 0 4 ++ "-" ++ pySlice (y ++ m ++ d) 4 6 ++
                         "-" ++ pySliceFrom (y ++ m ++ d) 6) "utc" 0) =
    some (ISOTime.mk (y ++ "-" ++ m ++ "-" ++ d) "utc" 0)
  rw [h1, h2, h3]

/-- C3: whenever both the start-timestamp accessor and the exposure-time
accessor succeed, `to_datetime_end` is exactly the start timestamp plus the
exposure-duration quantity (taken from `EXPTIME` in seconds): the end time
is the begin time with the exposure's value added to its seconds offset. -/
theorem to_datetime_end_eq_begin_plus_exposure (h : Header) (b : ISOTime)
    (q : Quantity)
    (hb : NeCamTranslator.to_datetime_begin h = some b)
    (hq : NeCamTranslator.to_exposure_time h = some q) :
    NeCamTranslator.to_datetime_end h = timeAdd b q ∧
      timeAdd b q = some { b with offsetSec := b.offsetSec + q.value } := by
  constructor
  · unfold NeCamTranslator.to_datetime_end
    rw [hb, hq]
  · have hunit : q.unit = "s" := to_exposure_time_unit h q hq
    unfold timeAdd quantityInSeconds
    rw [hunit]
    simp

/-- Witness for C2 at the concrete header `DATE-OBS = "20210314"`. -/
theorem to_datetime_begin_iso_witness :
    NeCamTranslator.to_datetime_begin [("DATE-OBS", HVal.vStr "20210314")] =
      some ⟨"2021-03-14", "utc", 0⟩ :=
  to_datetime_begin_iso [("DATE-OBS", HVal.vStr "20210314")] "2021" "03" "14"
    (by decide) (by decide) rfl rfl rfl

/-- Witness for C3 at the concrete header
`DATE-OBS = "20210314"`, `EXPTIME = 30`. -/
theorem to_datetime_end_eq_begin_plus_exposure_witness :
    NeCamTranslator.to_datetime_end
        [("DATE-OBS", HVal.vStr "20210314"), ("EXPTIME", HVal.vInt 30)] =
      timeAdd ⟨"2021-03-14", "utc", 0⟩ ⟨30, "s"⟩ ∧
    timeAdd ⟨"2021-03-14", "utc", 0⟩ ⟨30, "s"⟩ =
      some ⟨"2021-03-14", "utc", 0 + 30⟩ :=
  to_datetime_end_eq_begin_plus_exposure
    [("DATE-OBS", HVal.vStr "20210314"), ("EXPTIME", HVal.vInt 30)]
    ⟨"2021-03-14", "utc", 0⟩ ⟨30, "s"⟩ (by decide) (by decide)

/-- C5: for a header carrying string values under `RA2000` and `DEC2000`,
`to_tracking_radec` returns a coordinate built in the single frame
`"icrs"`, holding exactly those two values, with the right ascension read
as an hour-angle quantity and the declination as a degree quantity. -/
theorem to_tracking_radec_spec (h : Header) (ra dec : String)
    (hra : h.lookup "RA2000" = some (HVal.vStr ra))
    (hdec : h.lookup "DEC2000" = some (HVal.vStr dec)) :
    NeCamTranslator.to_tracking_radec h =
      some ⟨HVal.vStr ra, HVal.vStr dec, "icrs", "hourangle", "deg"⟩ := by
  unfold NeCamTranslator.to_tracking_radec
  rw [hra, hdec]

/-- Witness for C5 at a concrete sexagesimal-style header. -/
theorem to_tracking_radec_spec_witness :
    NeCamTranslator.to_tracking_radec
        [("RA2000", HVal.vStr "12:34:56.7"), ("DEC2000", HVal.vStr "-01:02:03")] =
      some ⟨HVal.vStr "12:34:56.7", HVal.vStr "-01:02:03",
            "icrs", "hourangle", "deg"⟩ :=
  to_tracking_radec_spec
    [("RA2000", HVal.vStr "12:34:56.7"), ("DEC2000", HVal.vStr "-01:02:03")]
    "12:34:56.7" "-01:02:03" (by decide) (by decide)

/-- C4 counterexample: the claim "the result has exactly two characters for
every numeric identifier" fails at `DETECTOR = 100`, where `'{:02d}'`
yields the three-character string `"100"`. -/
theorem to_detector_name_not_always_two_chars :
    NeCamTranslator.to_detector_name [("DETECTOR", HVal.vInt 100)] =
        some "100" ∧
      ("100" : String).length ≠ 2 := by
  constructor
  · rfl
  · decide

/-- C4 (amended): for a header whose `DETECTOR` value is an integer `n`,
`to_detector_name` yields `'{:02d}'` applied to `n`: a minimum-width-2
zero-padded rendering, which zero-pads any single-digit detector number to
two digits (`"0"` prepended to its decimal digit) and always has at least
two characters — but identifiers of three or more digits keep all their
digits. -/
theorem to_detector_name_amended (h : Header) (n : Int)
    (hl : h.lookup "DETECTOR" = some (HVal.vInt n)) :
    NeCamTranslator.to_detector_name h = some (format02d n) ∧
      2 ≤ (format02d n).length ∧
      (∀ k : Nat, k < 10 →
        format02d (k : Int) = "0" ++ Nat.repr k ∧
          (format02d (k : Int)).length = 2) := by
  refine ⟨?_, format02d_length n, ?_⟩
  · unfold NeCamTranslator.to_detector_name
    rw [hl]
  · intro k hk
    interval_cases k <;> exact ⟨rfl, rfl⟩

/-- Witness for the amended C4 at `DETECTOR = 3`. -/
theorem to_detector_name_amended_witness :
    NeCamTranslator.to_detector_name [("DETECTOR", HVal.vInt 3)] =
        some (format02d 3) ∧
      2 ≤ (format02d 3).length ∧
      (∀ k : Nat, k < 10 →
        format02d (k : Int) = "0" ++ Nat.repr k ∧
          (format02d (k : Int)).length = 2) :=
  to_detector_name_amended [("DETECTOR", HVal.vInt 3)] 3 (by decide)

/-- C6: every key of the grouping set `config.register.visit` and of the
uniqueness set `config.register.unique` appears as a key of the column
schema `config.register.columns`. -/
theorem register_keys_have_columns :
    ∀ k ∈ IngestConfig.registerVisit ++ IngestConfig.registerUnique,
      (IngestConfig.registerColumns.lookup k).isSome = true := by
  decide

/-- Witness for C6 at the concrete key `"visit"`. -/
theorem register_keys_have_columns_witness :
    (IngestConfig.registerColumns.lookup "visit").isSome = true :=
  register_keys_have_columns "visit" (by decide)

/-- C7: when an expected header keyword is absent, the accessor propagates
the lookup failure (`none`, modelling `KeyError`) instead of producing a
default: `DATE-OBS` for `to_datetime_begin`, `RA2000`/`DEC2000` for
`to_tracking_radec`, `DETECTOR` for `to_detector_name`, `INSTRUME` for
`to_instrument`; and none of these four properties has a constant fallback
declared in `_const_map`. -/
theorem missing_keyword_fails (h : Header) :
    (h.lookup "DATE-OBS" = none → NeCamTranslator.to_datetime_begin h = none) ∧
    (h.lookup "RA2000" = none → NeCamTranslator.to_tracking_radec h = none) ∧
    (h.lookup "DEC2000" = none → NeCamTranslator.to_tracking_radec h = none) ∧
    (h.lookup "DETECTOR" = none → NeCamTranslator.to_detector_name h = none) ∧
    (h.lookup "INSTRUME" = none → NeCamTranslator.to_instrument h = none) ∧
    NeCamTranslator._const_map.lookup "datetime_begin" = none ∧
    NeCamTranslator._const_map.lookup "tracking_radec" = none ∧
    NeCamTranslator._const_map.lookup "detector_name" = none ∧
    NeCamTranslator._const_map.lookup "instrument" = none := by
  refine ⟨?_, ?_, ?_, ?_, ?_, by decide, by decide, by decide, by decide⟩
  · intro hn
    unfold NeCamTranslator.to_datetime_begin
    rw [hn]
  · intro hn
    unfold NeCamTranslator.to_tracking_radec
    rw [hn]
  · intro hn
    unfold NeCamTranslator.to_tracking_radec
    rw [hn]
    cases h.lookup "RA2000" <;> rfl
  · intro hn
    unfold NeCamTranslator.to_detector_name
    rw [hn]
  · intro hn
    unfold NeCamTranslator.to_instrument
    rw [hn]

/-- Witness for C7 at the empty header, which lacks every keyword. -/
theorem missing_keyword_fails_witness :
    NeCamTranslator.to_datetime_begin [] = none ∧
      NeCamTranslator.to_tracking_radec [] = none ∧
      NeCamTranslator.to_detector_name [] = none ∧
      NeCamTranslator.to_instrument [] = none := by
  have h := missing_keyword_fails []
  exact ⟨h.1 rfl, h.2.1 rfl, h.2.2.2.1 rfl, h.2.2.2.2.1 rfl⟩

/-- C8 counterexample: `to_telescope` is a derived accessor of the
translator, yet it does not carry the `cache_translation` decorator, so the
claim that every derived accessor is memoized by the host's caching
discipline fails at `to_telescope`. -/
theorem to_telescope_not_cached :
    "to_telescope" ∈ NeCamTranslator.derivedAccessors ∧
      "to_telescope" ∉ NeCamTranslator.cacheDecorated := by
  decide

/-- C8 (amended): every derived accessor except `to_telescope` carries the
`cache_translation` decorator and is thus memoized per header;
`to_telescope` itself is not decorated, but it merely delegates to the
memoized `to_instrument`, so repeated lookups still return the same
result. -/
theorem derived_accessors_cached_amended :
    (∀ a ∈ NeCamTranslator.derivedAccessors,
        a ≠ "to_telescope" → a ∈ NeCamTranslator.cacheDecorated) ∧
      ∀ h : Header,
        NeCamTranslator.to_telescope h = NeCamTranslator.to_instrument h :=
  ⟨by decide, fun _ => rfl⟩

/-- Witness for the amended C8 at `to_datetime_begin` and the empty
header. -/
theorem derived_accessors_cached_amended_witness :
    "to_datetime_begin" ∈ NeCamTranslator.cacheDecorated ∧
      NeCamTranslator.to_telescope [] = NeCamTranslator.to_instrument [] :=
  ⟨derived_accessors_cached_amended.1 "to_datetime_begin" (by decide) (by decide),
   derived_accessors_cached_amended.2 []⟩

/-- C9: the trivially mapped identifiers `exposure_id`, `visit_id`,
`observation_id` and `detector_exposure_id` are all copies of the same
header keyword `RUN`, hence equal on every header; likewise `detector_num`
and `detector_serial` are both copies of `DETECTOR`, hence equal. -/
theorem trivial_map_aliases (h : Header) :
    NeCamTranslator.exposure_id h = NeCamTranslator.visit_id h ∧
      NeCamTranslator.visit_id h = NeCamTranslator.observation_id h ∧
      NeCamTranslator.observation_id h = NeCamTranslator.detector_exposure_id h ∧
      NeCamTranslator.detector_num h = NeCamTranslator.detector_serial h :=
  ⟨rfl, rfl, rfl, rfl⟩

/-- C10: on every header accepted by `can_translate`, `to_instrument`
returns `"NeCam"`; in particular its `"Unknown"` fallback branch is
unreachable under that precondition. -/
theorem to_instrument_of_can_translate (h : Header)
    (hc : NeCamTranslator.can_translate h = true) :
    NeCamTranslator.to_instrument h = some "NeCam" ∧
      NeCamTranslator.to_instrument h ≠ some "Unknown" := by
  have hl : h.lookup "INSTRUME" = some (HVal.vStr "NECAM") :=
    (can_translate_eq_true_iff h).mp hc
  have hi : NeCamTranslator.to_instrument h = some "NeCam" := by
    unfold NeCamTranslator.to_instrument
    rw [hl]
    simp
  refine ⟨hi, ?_⟩
  rw [hi]
  simp

/-- Witness for C10 at the concrete header `INSTRUME = "NECAM"`. -/
theorem to_instrument_of_can_translate_witness :
    NeCamTranslator.to_instrument [("INSTRUME", HVal.vStr "NECAM")] =
        some "NeCam" ∧
      NeCamTranslator.to_instrument [("INSTRUME", HVal.vStr "NECAM")] ≠
        some "Unknown" :=
  to_instrument_of_can_translate [("INSTRUME", HVal.vStr "NECAM")] (by decide)

end ObsNecam
